import Mathlib

/-!
Verification of the `SSHClient` wrapper (src/client.py), a thin convenience
layer over the paramiko SSH/SFTP library.  The wrapper is embedded shallowly:
each method becomes a Lean function that returns the list of calls it makes to
the underlying library (its event trace), the updated remote file system, and
either a Python-style exception or a result value.  The underlying library
(transport, SFTP subsystem, remote command execution) is an oracle supplied as
a parameter, since the repository contains no transport logic of its own.
-/

/-- Python-style exceptions that the wrapper or the underlying library can
raise: `nameError` for an unresolvable bare name (Python 3 has no builtin
`file`), `indexError` for out-of-range sequence access, `attributeError` for
attribute access on `None`, `connectionError` for connection establishment
failures, `sshError` for the underlying library refusing an operation on an
inactive session, `ioError` for file-system failures. -/
inductive PyError where
  | nameError (msg : String)
  | indexError
  | attributeError (msg : String)
  | connectionError (msg : String)
  | sshError (msg : String)
  | ioError (msg : String)
deriving DecidableEq, Repr

/-- Connection parameters held by the wrapper: `__init__` stores
`{host, username, password, port}`. -/
structure ConnParams where
  host : String
  username : String
  password : String
  port : Nat
deriving DecidableEq, Repr

/-- The remote file system visible through SFTP: an association list from
remote path to file contents, most recent binding first. -/
abbrev Fs := List (String × String)

/-- Look a path up in the remote file system. -/
def fsGet : Fs → String → Option String
  | [], _ => none
  | (k, v) :: t, p => if k = p then some v else fsGet t p

/-- Bind a path to new contents in the remote file system. -/
def fsSet (fs : Fs) (p v : String) : Fs := (p, v) :: fs

/-- The metadata object the underlying SFTP `put`/`putfo`/`stat` calls report
(size, modification time, permissions). -/
structure SFTPAttributes where
  size : Nat
  mtime : Nat
  perm : Nat
deriving DecidableEq, Repr

/-- The behaviour of the external collaborators, supplied as an oracle:
whether connecting with given parameters succeeds, what standard output and
standard error a remote command produces given the full contents written to
its standard input, the local file system that `put` reads from, and the
attributes a remote stat reports for a path with given contents. -/
structure Transport where
  connectOK : ConnParams → Bool
  exec : String → String → String × String
  localFs : String → Option String
  statAttrs : String → String → SFTPAttributes

/-- The underlying paramiko client object created by `__enter__`: after
`close()` its transport is no longer active. -/
structure Handle where
  active : Bool
deriving DecidableEq, Repr

/-- The wrapper object: stored login parameters and `self.ssh`, which is
`None` until the scope is entered. -/
structure SSHClient where
  loginInfo : ConnParams
  ssh : Option Handle
deriving DecidableEq, Repr

/-- The local source argument of `upload`: either a path string or an
already-open file object (modelled by the contents it yields). -/
inductive LocalSource where
  | path (p : String)
  | fileObj (content : String)
deriving DecidableEq, Repr

/-- Calls a wrapper method makes on an established connection: SFTP
sub-channel lifecycle, transfer calls with the arguments actually passed on,
remote-file handle operations, and execution-channel operations.
`stdinClose` (shutting down the input stream, i.e. signalling end-of-input)
is part of the collaborator's interface although the wrapper never emits it. -/
inductive SEvent where
  | openSftp
  | closeSftp
  | putfo (content remote : String) (callback : Option Nat) (confirm : Bool)
  | put (localPath remote : String) (callback : Option Nat) (confirm : Bool)
  | get (remote localPath : String)
  | fileOpen (path mode : String) (bufsize : Int)
  | fileWrite (data : String)
  | fileRead
  | fileClose
  | execChannel (command : String)
  | stdinWrite (s : String)
  | stdinFlush
  | stdinClose
  | stdoutRead
  | stderrRead
deriving DecidableEq, BEq, Repr

/-- Session-lifecycle events of the scope itself: the `__enter__` setup calls,
the connect, the close performed by `__exit__`, and the method-level events of
the block wrapped by `sub`. -/
inductive Event where
  | loadSystemHostKeys
  | setMissingHostKeyPolicyAutoAdd
  | connect (p : ConnParams)
  | closeConn
  | sub (e : SEvent)
deriving DecidableEq, BEq, Repr

/-- Behaviour of `sftp.file(remote_path, mode=mode, bufsize=bufsize)` on the
remote file system: a truncating write mode creates or empties the file, an
append mode opens (creating if missing) at the end, a read mode requires the
file to exist.  The returned string is the contents of the handle's buffer at
open time (empty for a truncating open).  Only the standard whole-file modes
the wrapper's callers use are modelled; positioned updates inside existing
contents are outside the wrapper's contract. -/
def sftpFileOpen (fs : Fs) (path mode : String) (bufsize : Int) :
    List SEvent × Fs × Except PyError String :=
  if mode = "w" ∨ mode = "wb" then
    ([SEvent.fileOpen path mode bufsize], fsSet fs path "", Except.ok "")
  else if mode = "a" ∨ mode = "ab" then
    match fsGet fs path with
    | some content => ([SEvent.fileOpen path mode bufsize], fs, Except.ok content)
    | none => ([SEvent.fileOpen path mode bufsize], fsSet fs path "", Except.ok "")
  else if mode = "r" ∨ mode = "rb" then
    match fsGet fs path with
    | some content => ([SEvent.fileOpen path mode bufsize], fs, Except.ok content)
    | none => ([SEvent.fileOpen path mode bufsize], fs,
               Except.error (PyError.ioError "no such file"))
  else ([SEvent.fileOpen path mode bufsize], fs,
        Except.error (PyError.ioError "unsupported mode"))

/-- Whether a mode string opens the remote file for writing. -/
def modeAllowsWrite (mode : String) : Bool :=
  mode == "w" || mode == "wb" || mode == "a" || mode == "ab"

/-- Whether a mode string opens the remote file for reading. -/
def modeAllowsRead (mode : String) : Bool :=
  mode == "r" || mode == "rb"

/-- The attributes object the underlying `put`/`putfo` call reports: paramiko
stats the uploaded file when `confirm` is set and otherwise returns a fresh
empty attributes object. -/
def putResult (tr : Transport) (remote content : String) (confirm : Bool) : SFTPAttributes :=
  if confirm then tr.statAttrs remote content else SFTPAttributes.mk 0 0 0

/-- `upload(self, local_path, remote_path, callback=None, confirm=True)`.
The body runs under `with self.ssh.open_sftp() as sftp:` and dispatches on
`isinstance(local_path, file)`.  The bare name `file` is a builtin only in
Python 2; the flag `py2` records whether that name resolves.  Under Python 3
the isinstance check raises `NameError` after the sub-channel is opened, the
`with` statement still closes the sub-channel, and the error propagates, so
neither `put` nor `putfo` is reached. -/
def SSHClient.upload (py2 : Bool) (tr : Transport) (c : SSHClient) (fs : Fs)
    (local_path : LocalSource) (remote_path : String)
    (callback : Option Nat) (confirm : Bool) :
    List SEvent × Fs × Except PyError SFTPAttributes :=
  match c.ssh with
  | none => ([], fs,
      Except.error (PyError.attributeError "NoneType object has no attribute open_sftp"))
  | some h =>
      if h.active then
        if py2 then
          match local_path with
          | LocalSource.fileObj content =>
              ([SEvent.openSftp, SEvent.putfo content remote_path callback confirm,
                SEvent.closeSftp],
               fsSet fs remote_path content,
               Except.ok (putResult tr remote_path content confirm))
          | LocalSource.path p =>
              match tr.localFs p with
              | some content =>
                  ([SEvent.openSftp, SEvent.put p remote_path callback confirm,
                    SEvent.closeSftp],
                   fsSet fs remote_path content,
                   Except.ok (putResult tr remote_path content confirm))
              | none =>
                  ([SEvent.openSftp, SEvent.put p remote_path callback confirm,
                    SEvent.closeSftp],
                   fs, Except.error (PyError.ioError "local file not found"))
        else
          ([SEvent.openSftp, SEvent.closeSftp], fs,
           Except.error (PyError.nameError "name file is not defined"))
      else ([], fs, Except.error (PyError.sshError "SSH session not active"))

/-- `write(self, data, remote_path, mode='w', bufsize=-1)`: open an SFTP
sub-channel, open the remote path with the given mode, write the data in one
call, and close both handles via their `with` blocks. -/
def SSHClient.write (c : SSHClient) (fs : Fs)
    (data remote_path mode : String) (bufsize : Int) :
    List SEvent × Fs × Except PyError Unit :=
  match c.ssh with
  | none => ([], fs,
      Except.error (PyError.attributeError "NoneType object has no attribute open_sftp"))
  | some h =>
      if h.active then
        match sftpFileOpen fs remote_path mode bufsize with
        | (t, fs1, Except.error e) =>
            (SEvent.openSftp :: t ++ [SEvent.closeSftp], fs1, Except.error e)
        | (t, fs1, Except.ok buf) =>
            if modeAllowsWrite mode then
              (SEvent.openSftp :: t ++
                 [SEvent.fileWrite data, SEvent.fileClose, SEvent.closeSftp],
               fsSet fs1 remote_path (buf ++ data), Except.ok ())
            else
              (SEvent.openSftp :: t ++ [SEvent.fileClose, SEvent.closeSftp], fs1,
               Except.error (PyError.ioError "file not open for writing"))
      else ([], fs, Except.error (PyError.sshError "SSH session not active"))

/-- `download(self, remote_path, local_path, callback=None, confirm=True)`:
the body is `return sftp.get(remote_path, local_path)` under a `with` for the
sub-channel.  The `callback` and `confirm` parameters are accepted but never
passed to `get`, and paramiko's `get` returns `None`. -/
def SSHClient.download (tr : Transport) (c : SSHClient) (fs : Fs)
    (remote_path local_path : String) (callback : Option Nat) (confirm : Bool) :
    List SEvent × Fs × Except PyError (Option SFTPAttributes) :=
  match c.ssh with
  | none => ([], fs,
      Except.error (PyError.attributeError "NoneType object has no attribute open_sftp"))
  | some h =>
      if h.active then
        match fsGet fs remote_path with
        | some _ =>
            ([SEvent.openSftp, SEvent.get remote_path local_path, SEvent.closeSftp],
             fs, Except.ok none)
        | none =>
            ([SEvent.openSftp, SEvent.get remote_path local_path, SEvent.closeSftp],
             fs, Except.error (PyError.ioError "no such file"))
      else ([], fs, Except.error (PyError.sshError "SSH session not active"))

/-- `read(self, remote_path, mode='r', bufsize=-1)`: open an SFTP sub-channel,
open the remote path with the given mode, read the whole contents, close both
handles, and return the buffer. -/
def SSHClient.read (c : SSHClient) (fs : Fs)
    (remote_path mode : String) (bufsize : Int) :
    List SEvent × Fs × Except PyError String :=
  match c.ssh with
  | none => ([], fs,
      Except.error (PyError.attributeError "NoneType object has no attribute open_sftp"))
  | some h =>
      if h.active then
        match sftpFileOpen fs remote_path mode bufsize with
        | (t, fs1, Except.error e) =>
            (SEvent.openSftp :: t ++ [SEvent.closeSftp], fs1, Except.error e)
        | (t, fs1, Except.ok buf) =>
            if modeAllowsRead mode then
              (SEvent.openSftp :: t ++
                 [SEvent.fileRead, SEvent.fileClose, SEvent.closeSftp],
               fs1, Except.ok buf)
            else
              (SEvent.openSftp :: t ++ [SEvent.fileClose, SEvent.closeSftp], fs1,
               Except.error (PyError.ioError "file not open for reading"))
      else ([], fs, Except.error (PyError.sshError "SSH session not active"))

/-- `exec_command(self, command)`: the underlying
`self.ssh.exec_command(command)` returns the triple
`(stdin, stdout, stderr)`; the wrapper destructures it as
`_, stdin, stderr`, binding the local name `stdin` to the standard-output
stream, and returns `(stdin.read(), stderr.read())`.  Nothing is written to
the command's real input stream, so the streams' contents are the oracle's
answer for the command with empty input. -/
def SSHClient.exec_command (tr : Transport) (c : SSHClient) (fs : Fs)
    (command : String) :
    List SEvent × Fs × Except PyError (String × String) :=
  match c.ssh with
  | none => ([], fs,
      Except.error (PyError.attributeError "NoneType object has no attribute exec_command"))
  | some h =>
      if h.active then
        let streams := ((), (tr.exec command "").1, (tr.exec command "").2)
        let stdin := streams.2.1
        let stderr := streams.2.2
        ([SEvent.execChannel command, SEvent.stdoutRead, SEvent.stderrRead], fs,
         Except.ok (stdin, stderr))
      else ([], fs, Except.error (PyError.sshError "SSH session not active"))

/-- `exec_commands(self, commands)`: Python evaluates the callee
`self.ssh.exec_command` first (so a `None` session raises `AttributeError`),
then the argument `commands[0]` (so an empty list raises `IndexError` before
any channel is opened), then performs the call.  On success the wrapper writes
`'\n'.join(commands[1:]) + '\n'`, then `'exit\n'`, flushes the input stream
(it never closes it), and returns `(stdout.read(), stderr.read())`. -/
def SSHClient.exec_commands (tr : Transport) (c : SSHClient) (fs : Fs)
    (commands : List String) :
    List SEvent × Fs × Except PyError (String × String) :=
  match c.ssh with
  | none => ([], fs,
      Except.error (PyError.attributeError "NoneType object has no attribute exec_command"))
  | some h =>
      match commands with
      | [] => ([], fs, Except.error PyError.indexError)
      | c0 :: rest =>
          if h.active then
            let w1 := String.intercalate "\n" rest ++ "\n"
            let w2 := "exit\n"
            let stdinData := w1 ++ w2
            ([SEvent.execChannel c0, SEvent.stdinWrite w1, SEvent.stdinWrite w2,
              SEvent.stdinFlush, SEvent.stdoutRead, SEvent.stderrRead], fs,
             Except.ok ((tr.exec c0 stdinData).1, (tr.exec c0 stdinData).2))
          else ([], fs, Except.error (PyError.sshError "SSH session not active"))

/-- `close(self)`: delegates to `self.ssh.close()`, after which the underlying
client is inactive. -/
def SSHClient.close (c : SSHClient) : SSHClient :=
  match c.ssh with
  | none => c
  | some _ => SSHClient.mk c.loginInfo (some (Handle.mk false))

/-- One statement of the body of a `with SSHClient(...) as ssh:` block: a call
of one of the six transfer/command methods, or arbitrary user code raising an
exception. -/
inductive Op where
  | upload (src : LocalSource) (remote_path : String) (callback : Option Nat) (confirm : Bool)
  | write (data remote_path mode : String) (bufsize : Int)
  | download (remote_path local_path : String) (callback : Option Nat) (confirm : Bool)
  | read (remote_path mode : String) (bufsize : Int)
  | execCommand (command : String)
  | execCommands (commands : List String)
  | userRaise (e : PyError)
deriving DecidableEq, Repr

/-- Whether an `Op` is a call of one of the wrapper's transfer/command
methods (as opposed to user code raising). -/
def Op.isMethodCall : Op → Bool
  | Op.userRaise _ => false
  | _ => true

/-- Forget a method's return value, keeping its trace, file-system effect and
raised exception. -/
def discardVal {α : Type} : List SEvent × Fs × Except PyError α → List SEvent × Fs × Except PyError Unit
  | (t, fs, Except.ok _) => (t, fs, Except.ok ())
  | (t, fs, Except.error e) => (t, fs, Except.error e)

/-- Run one statement of the block against the session. -/
def runOp (py2 : Bool) (tr : Transport) (c : SSHClient) (fs : Fs) :
    Op → List SEvent × Fs × Except PyError Unit
  | Op.upload src rp cb cf => discardVal (SSHClient.upload py2 tr c fs src rp cb cf)
  | Op.write d rp m b => SSHClient.write c fs d rp m b
  | Op.download rp lp cb cf => discardVal (SSHClient.download tr c fs rp lp cb cf)
  | Op.read rp m b => discardVal (SSHClient.read c fs rp m b)
  | Op.execCommand cmd => discardVal (SSHClient.exec_command tr c fs cmd)
  | Op.execCommands cmds => discardVal (SSHClient.exec_commands tr c fs cmds)
  | Op.userRaise e => ([], fs, Except.error e)

/-- Run the statements of the block in order; the first raised exception
aborts the rest of the block and propagates. -/
def runOps (py2 : Bool) (tr : Transport) (c : SSHClient) :
    Fs → List Op → List SEvent × Fs × Except PyError Unit
  | fs, [] => ([], fs, Except.ok ())
  | fs, op :: ops =>
      match runOp py2 tr c fs op with
      | (t, fs1, Except.error e) => (t, fs1, Except.error e)
      | (t, fs1, Except.ok _) =>
          match runOps py2 tr c fs1 ops with
          | (t2, fs2, r) => (t ++ t2, fs2, r)

/-- The `with SSHClient(host, username, password, port) as ssh:` statement.
`__enter__` builds a paramiko client, loads the system host keys, installs
`AutoAddPolicy` for unknown host keys, and connects with the stored
parameters; if the connect raises, the error propagates and `__exit__` never
runs.  Otherwise the block runs and `__exit__` — on every exit path, normal or
raising — calls `self.close()`, which closes the connection; an exception
raised in the block then propagates. -/
def withSSHClient (py2 : Bool) (tr : Transport) (p : ConnParams) (fs : Fs)
    (ops : List Op) : List Event × Fs × Except PyError Unit :=
  if tr.connectOK p then
    match runOps py2 tr (SSHClient.mk p (some (Handle.mk true))) fs ops with
    | (t, fs1, r) =>
        ([Event.loadSystemHostKeys, Event.setMissingHostKeyPolicyAutoAdd,
          Event.connect p] ++ t.map Event.sub ++ [Event.closeConn], fs1, r)
  else
    ([Event.loadSystemHostKeys, Event.setMissingHostKeyPolicyAutoAdd, Event.connect p],
     fs, Except.error (PyError.connectionError "connect failed"))

/-- Whether a lifecycle event is a connection attempt. -/
def Event.isConnect : Event → Bool
  | Event.connect _ => true
  | _ => false

/-- Whether a lifecycle event is the connection close. -/
def Event.isCloseConn : Event → Bool
  | Event.closeConn => true
  | _ => false

/-- Everything a method wrote to an execution channel's input stream, in
order. -/
def stdinContent : List SEvent → String
  | [] => ""
  | SEvent.stdinWrite s :: t => s ++ stdinContent t
  | _ :: t => stdinContent t

/-- Whether an event shuts down the execution channel's input stream. -/
def SEvent.isStdinClose : SEvent → Bool
  | SEvent.stdinClose => true
  | _ => false

/-- Whether a trace ever signals end-of-input on the execution channel's
input stream (shuts the stream down). -/
def signalsEndOfInput (t : List SEvent) : Bool :=
  t.any SEvent.isStdinClose

/-- A concrete transport oracle used to instantiate universally quantified
theorems at specific inputs. -/
def trDemo : Transport :=
  Transport.mk (fun _ => true) (fun _ _ => ("out", "err")) (fun _ => some "filedata")
    (fun _ _ => SFTPAttributes.mk 8 0 420)

/-- A transport oracle whose connect always fails. -/
def trDown : Transport :=
  Transport.mk (fun _ => false) (fun _ _ => ("", "")) (fun _ => none)
    (fun _ _ => SFTPAttributes.mk 0 0 0)

/-- Concrete connection parameters. -/
def paramsDemo : ConnParams := ConnParams.mk "host" "user" "pw" 22

/-- A session whose scope has been entered: `self.ssh` is an active client. -/
def openClient : SSHClient := SSHClient.mk paramsDemo (some (Handle.mk true))

/-- A session whose scope has been exited: `self.ssh` is a closed client. -/
def exitedClient : SSHClient := SSHClient.mk paramsDemo (some (Handle.mk false))

/-- A session whose scope was never entered: `self.ssh` is `None`. -/
def freshClient : SSHClient := SSHClient.mk paramsDemo none

/-- Claim C5: the `callback` and `confirm` parameters of `download` have no
effect — two calls on the same session state with the same remote and local
paths but different callback/confirm arguments invoke the underlying fetch
identically and produce the same trace, file-system effect and result,
because the arguments are accepted by the signature but never passed to the
underlying `get` call. -/
theorem download_ignores_callback_confirm (tr : Transport) (c : SSHClient) (fs : Fs)
    (remote_path local_path : String) (cb1 cb2 : Option Nat) (cf1 cf2 : Bool) :
    SSHClient.download tr c fs remote_path local_path cb1 cf1 =
      SSHClient.download tr c fs remote_path local_path cb2 cf2 := rfl

/-- Claim C10: `exec_commands` on an empty command list raises `IndexError`
from evaluating `commands[0]`, before any execution channel is opened (the
trace is empty) and before any remote side effect occurs (the file system is
unchanged). -/
theorem exec_commands_empty_index_error (tr : Transport) (c : SSHClient) (fs : Fs)
    (h : Handle) (hc : c.ssh = some h) :
    SSHClient.exec_commands tr c fs [] = ([], fs, Except.error PyError.indexError) := by
  simp [SSHClient.exec_commands, hc]

/-- Witness for C10 at a concrete open session. -/
theorem exec_commands_empty_index_error_witness :
    SSHClient.exec_commands trDemo openClient [] [] =
      ([], [], Except.error PyError.indexError) :=
  exec_commands_empty_index_error trDemo openClient [] (Handle.mk true) rfl

/-- Claim C9: under Python 3 name resolution (no builtin `file`), every call
to `upload` on an open session — whatever the local source — raises
`NameError` from the `isinstance(local_path, file)` check; the trace shows
the sub-channel being opened and closed but no `put` or `putfo` call, so no
SFTP transfer is attempted, and the remote file system is unchanged. -/
theorem upload_py3_name_error (tr : Transport) (c : SSHClient) (fs : Fs)
    (local_path : LocalSource) (remote_path : String)
    (callback : Option Nat) (confirm : Bool) (hc : c.ssh = some (Handle.mk true)) :
    SSHClient.upload false tr c fs local_path remote_path callback confirm =
      ([SEvent.openSftp, SEvent.closeSftp], fs,
       Except.error (PyError.nameError "name file is not defined")) := by
  simp [SSHClient.upload, hc]

/-- Witness for C9 at a concrete path source. -/
theorem upload_py3_name_error_witness :
    SSHClient.upload false trDemo openClient [] (LocalSource.path "/tmp/f") "/r" none true =
      ([SEvent.openSftp, SEvent.closeSftp], [],
       Except.error (PyError.nameError "name file is not defined")) :=
  upload_py3_name_error trDemo openClient [] (LocalSource.path "/tmp/f") "/r" none true rfl

/-- Claim C3: `exec_command` returns the pair of the command's actual
standard output and standard error as delivered by the underlying exec call
(with nothing written to the command's input): the local name `stdin` is
bound to the second component of the underlying `(stdin, stdout, stderr)`
triple, so the first component of the returned pair is the real standard
output. -/
theorem exec_command_returns_actual_stdout (tr : Transport) (c : SSHClient) (fs : Fs)
    (command : String) (hc : c.ssh = some (Handle.mk true)) :
    (SSHClient.exec_command tr c fs command).2.2 =
      Except.ok ((tr.exec command "").1, (tr.exec command "").2) := by
  simp [SSHClient.exec_command, hc]

/-- Witness for C3: with an oracle answering `("out", "err")`, the first
component of the result is the standard output `"out"`. -/
theorem exec_command_returns_actual_stdout_witness :
    (SSHClient.exec_command trDemo openClient [] "echo hello").2.2 =
      Except.ok (("out", "err") : String × String) :=
  exec_command_returns_actual_stdout trDemo openClient [] "echo hello" rfl

/-- Claim C4: under Python 2 name resolution, `upload` on an open session
opens a fresh SFTP sub-channel for the call; an already-open file object goes
through `putfo` and a path through `put`; in both branches the `callback`
and `confirm` arguments are forwarded unchanged to the underlying call, and
the attributes object that call reports is returned. -/
theorem upload_dispatch_and_forwarding (tr : Transport) (c : SSHClient) (fs : Fs)
    (remote_path : String) (callback : Option Nat) (confirm : Bool)
    (hc : c.ssh = some (Handle.mk true)) :
    (∀ content,
        SSHClient.upload true tr c fs (LocalSource.fileObj content) remote_path
            callback confirm =
          ([SEvent.openSftp, SEvent.putfo content remote_path callback confirm,
            SEvent.closeSftp],
           fsSet fs remote_path content,
           Except.ok (putResult tr remote_path content confirm))) ∧
    (∀ p content, tr.localFs p = some content →
        SSHClient.upload true tr c fs (LocalSource.path p) remote_path
            callback confirm =
          ([SEvent.openSftp, SEvent.put p remote_path callback confirm,
            SEvent.closeSftp],
           fsSet fs remote_path content,
           Except.ok (putResult tr remote_path content confirm))) := by
  constructor
  · intro content
    simp [SSHClient.upload, hc]
  · intro p content hp
    simp [SSHClient.upload, hc, hp]

/-- Witness for C4: a file-object source with a non-default callback token
and `confirm = false` goes through `putfo` with both forwarded. -/
theorem upload_dispatch_and_forwarding_witness :
    SSHClient.upload true trDemo openClient [] (LocalSource.fileObj "data") "/r"
        (some 7) false =
      ([SEvent.openSftp, SEvent.putfo "data" "/r" (some 7) false, SEvent.closeSftp],
       [("/r", "data")], Except.ok (SFTPAttributes.mk 0 0 0)) :=
  (upload_dispatch_and_forwarding trDemo openClient [] "/r" (some 7) false rfl).1 "data"

/-- Counterexample for claim C2 as stated, at the concrete input `["sh"]`:
the claim requires the input stream to receive each remaining command
line-by-line followed by a terminating `exit` line (here: exactly `"exit\n"`)
and end-of-input to be signalled on the stream.  The wrapper actually writes
`"\nexit\n"` (the join of zero remaining commands still appends a newline)
and only flushes the stream — it never shuts it down. -/
theorem exec_commands_claim_counterexample :
    ¬ (stdinContent (SSHClient.exec_commands trDemo openClient [] ["sh"]).1 = "exit\n" ∧
       signalsEndOfInput (SSHClient.exec_commands trDemo openClient [] ["sh"]).1 = true) := by
  decide

/-- Claim C2 (amended): for every non-empty command sequence, `exec_commands`
opens one execution channel using the first command, writes the remaining
commands joined by newlines followed by a newline (a single blank line when
there are no remaining commands), then writes a terminating `exit` line,
then flushes the input stream — without signalling end-of-input — and
returns the pair of the channel's standard-output and standard-error
contents for that input. -/
theorem exec_commands_behavior (tr : Transport) (c : SSHClient) (fs : Fs)
    (c0 : String) (rest : List String) (hc : c.ssh = some (Handle.mk true)) :
    SSHClient.exec_commands tr c fs (c0 :: rest) =
      ([SEvent.execChannel c0,
        SEvent.stdinWrite (String.intercalate "\n" rest ++ "\n"),
        SEvent.stdinWrite "exit\n", SEvent.stdinFlush,
        SEvent.stdoutRead, SEvent.stderrRead], fs,
       Except.ok ((tr.exec c0 (String.intercalate "\n" rest ++ "\n" ++ "exit\n")).1,
                  (tr.exec c0 (String.intercalate "\n" rest ++ "\n" ++ "exit\n")).2)) ∧
    signalsEndOfInput (SSHClient.exec_commands tr c fs (c0 :: rest)).1 = false := by
  constructor
  · simp [SSHClient.exec_commands, hc]
  · simp [SSHClient.exec_commands, hc, signalsEndOfInput, SEvent.isStdinClose]

/-- Witness for the amended C2 at `["sh", "echo one", "echo two"]`. -/
theorem exec_commands_behavior_witness :
    SSHClient.exec_commands trDemo openClient [] ["sh", "echo one", "echo two"] =
      ([SEvent.execChannel "sh",
        SEvent.stdinWrite "echo one\necho two\n",
        SEvent.stdinWrite "exit\n", SEvent.stdinFlush,
        SEvent.stdoutRead, SEvent.stderrRead], [],
       Except.ok (("out", "err") : String × String)) := by
  have h := (exec_commands_behavior trDemo openClient [] "sh"
    ["echo one", "echo two"] rfl).1
  simpa using h

/-- Claim C6: invoking any of the six transfer/command methods before the
scope has been entered (`self.ssh` is `None`) or after it has been exited
(the underlying client is closed) raises an exception — the implementation's
usage-error condition, an attribute error on `None` before entry and the
underlying library's inactive-session error after exit — rather than
silently doing nothing: the call returns an error, performs no underlying
operation (empty trace) and leaves the remote file system unchanged. -/
theorem methods_require_open_connection (py2 : Bool) (tr : Transport) (fs : Fs)
    (c : SSHClient) (op : Op) (hop : op.isMethodCall = true)
    (hc : c.ssh = none ∨ c.ssh = some (Handle.mk false)) :
    ∃ e, runOp py2 tr c fs op = ([], fs, Except.error e) := by
  rcases hc with hc | hc <;>
  cases op with
  | upload src rp cb cf =>
      simp [runOp, discardVal, SSHClient.upload, hc]
  | write d rp m b =>
      simp [runOp, SSHClient.write, hc]
  | download rp lp cb cf =>
      simp [runOp, discardVal, SSHClient.download, hc]
  | read rp m b =>
      simp [runOp, discardVal, SSHClient.read, hc]
  | execCommand cmd =>
      simp [runOp, discardVal, SSHClient.exec_command, hc]
  | execCommands cmds =>
      cases cmds <;> simp [runOp, discardVal, SSHClient.exec_commands, hc]
  | userRaise e =>
      simp [Op.isMethodCall] at hop

/-- Witness for C6: `exec_command` on a never-entered session errors with no
trace and no file-system change. -/
theorem methods_require_open_connection_witness :
    Op.isMethodCall (Op.execCommand "ls") = true ∧
    ∃ e, runOp true trDemo freshClient [] (Op.execCommand "ls") =
      ([], [], Except.error e) :=
  ⟨rfl, methods_require_open_connection true trDemo [] freshClient
    (Op.execCommand "ls") rfl (Or.inl rfl)⟩

/-- Whether a write mode and a read mode form the matching truncate-then-read
pair (text or binary). -/
def matchingModes (wm rm : String) : Bool :=
  (wm == "w" && rm == "r") || (wm == "wb" && rm == "rb")

/-- Claim C7: on an open session, writing byte content `data` to a remote
path and then reading that path back with the matching mode succeeds and
returns exactly `data`. -/
theorem write_read_roundtrip (c : SSHClient) (fs : Fs) (data path wm rm : String)
    (bufw bufr : Int) (hc : c.ssh = some (Handle.mk true))
    (hm : matchingModes wm rm = true) :
    (SSHClient.write c fs data path wm bufw).2.2 = Except.ok () ∧
    (SSHClient.read c (SSHClient.write c fs data path wm bufw).2.1 path rm bufr).2.2 =
      Except.ok data := by
  have hm' : (wm = "w" ∧ rm = "r") ∨ (wm = "wb" ∧ rm = "rb") := by
    simp only [matchingModes, Bool.or_eq_true, Bool.and_eq_true, beq_iff_eq] at hm
    exact hm
  have hdata : "" ++ data = data := by
    cases data
    simp [String.append]
  rcases hm' with ⟨h1, h2⟩ | ⟨h1, h2⟩ <;> subst h1 <;> subst h2 <;>
    simp [SSHClient.write, SSHClient.read, sftpFileOpen, modeAllowsWrite,
          modeAllowsRead, fsSet, fsGet, hc, hdata]

/-- Witness for C7 with `"hello"` and the text-mode pair. -/
theorem write_read_roundtrip_witness :
    matchingModes "w" "r" = true ∧
    ((SSHClient.write openClient [] "hello" "/f" "w" (-1)).2.2 = Except.ok () ∧
     (SSHClient.read openClient
        (SSHClient.write openClient [] "hello" "/f" "w" (-1)).2.1 "/f" "r" (-1)).2.2 =
       Except.ok "hello") :=
  ⟨rfl, write_read_roundtrip openClient [] "hello" "/f" "w" "r" (-1) (-1) rfl rfl⟩

/-- Claim C8: if the underlying connect fails during scope entry, the
connection error propagates to the caller, exactly one connect attempt is
made (no retry), and the scope-exit close is never invoked — the trace ends
at the failed connect with no close event. -/
theorem connect_failure_no_close (py2 : Bool) (tr : Transport) (p : ConnParams)
    (fs : Fs) (ops : List Op) (h : tr.connectOK p = false) :
    withSSHClient py2 tr p fs ops =
      ([Event.loadSystemHostKeys, Event.setMissingHostKeyPolicyAutoAdd,
        Event.connect p],
       fs, Except.error (PyError.connectionError "connect failed")) ∧
    (withSSHClient py2 tr p fs ops).1.countP Event.isConnect = 1 ∧
    (withSSHClient py2 tr p fs ops).1.countP Event.isCloseConn = 0 := by
  simp [withSSHClient, h, List.countP_cons, List.countP_nil,
        Event.isConnect, Event.isCloseConn]

/-- Witness for C8 against a transport that refuses every connection. -/
theorem connect_failure_no_close_witness :
    withSSHClient true trDown paramsDemo [] [Op.execCommand "ls"] =
      ([Event.loadSystemHostKeys, Event.setMissingHostKeyPolicyAutoAdd,
        Event.connect paramsDemo],
       [], Except.error (PyError.connectionError "connect failed")) :=
  (connect_failure_no_close true trDown paramsDemo [] [Op.execCommand "ls"] rfl).1

/-- Claim C1: for every session over connection parameters the transport
accepts and every block body (any sequence of method calls and user code,
whether it returns normally or raises), entering the scope establishes
exactly one underlying connection and leaving it closes that connection
exactly once, the close being the very last event — after the open and after
every operation of the block. -/
theorem scoped_connection_lifecycle (py2 : Bool) (tr : Transport) (p : ConnParams)
    (fs : Fs) (ops : List Op) (h : tr.connectOK p = true) :
    (withSSHClient py2 tr p fs ops).1.countP Event.isConnect = 1 ∧
    (withSSHClient py2 tr p fs ops).1.countP Event.isCloseConn = 1 ∧
    (withSSHClient py2 tr p fs ops).1.getLast? = some Event.closeConn := by
  have hsub1 : ∀ (l : List SEvent), (l.map Event.sub).countP Event.isConnect = 0 := by
    intro l
    rw [List.countP_map]
    simp [Function.comp, Event.isConnect]
  have hsub2 : ∀ (l : List SEvent), (l.map Event.sub).countP Event.isCloseConn = 0 := by
    intro l
    rw [List.countP_map]
    simp [Function.comp, Event.isCloseConn]
  rcases hrun : runOps py2 tr (SSHClient.mk p (some (Handle.mk true))) fs ops
    with ⟨t, fs1, r⟩
  refine ⟨?_, ?_, ?_⟩ <;>
    simp [withSSHClient, h, hrun, List.countP_append, List.countP_cons,
          List.countP_nil, hsub1, hsub2, Event.isConnect, Event.isCloseConn,
          List.getLast?_cons, List.getLast?_concat]

/-- Witness for C1: a block that runs one command and then raises still
yields exactly one connect, one close, and the close last. -/
theorem scoped_connection_lifecycle_witness :
    (withSSHClient true trDemo paramsDemo []
        [Op.execCommand "ls", Op.userRaise (PyError.ioError "boom")]).1.countP
        Event.isConnect = 1 ∧
    (withSSHClient true trDemo paramsDemo []
        [Op.execCommand "ls", Op.userRaise (PyError.ioError "boom")]).1.countP
        Event.isCloseConn = 1 ∧
    (withSSHClient true trDemo paramsDemo []
        [Op.execCommand "ls", Op.userRaise (PyError.ioError "boom")]).1.getLast? =
      some Event.closeConn :=
  scoped_connection_lifecycle true trDemo paramsDemo []
    [Op.execCommand "ls", Op.userRaise (PyError.ioError "boom")] rfl
